import Mathlib

/-!
Verification of the VoiceRagAgent backend (document ingestion, deterministic
embedding, retrieval pipeline, tool adapter, equipment HTTP handlers) against
its natural-language specification.  The Python sources are shallowly embedded
as executable Lean definitions; external collaborators (MongoDB, numpy's
seeded generator, text extraction) are modelled at the interface granularity
the repository code relies on.
-/

set_option maxRecDepth 100000

namespace VoiceRag

/-! ## SHA-256 (model of Python hashlib.sha256 over byte lists)

All arithmetic is on `Nat` with explicit reduction modulo `2^32`. -/

def w32 (x : Nat) : Nat := x % 4294967296

def rotr32 (x n : Nat) : Nat := w32 ((x >>> n) ||| (x <<< (32 - n)))

def bigSigma0 (x : Nat) : Nat := (rotr32 x 2) ^^^ (rotr32 x 13) ^^^ (rotr32 x 22)

def bigSigma1 (x : Nat) : Nat := (rotr32 x 6) ^^^ (rotr32 x 11) ^^^ (rotr32 x 25)

def smallSigma0 (x : Nat) : Nat := (rotr32 x 7) ^^^ (rotr32 x 18) ^^^ (x >>> 3)

def smallSigma1 (x : Nat) : Nat := (rotr32 x 17) ^^^ (rotr32 x 19) ^^^ (x >>> 10)

def chFun (x y z : Nat) : Nat := (x &&& y) ^^^ ((x ^^^ 4294967295) &&& z)

def majFun (x y z : Nat) : Nat := (x &&& y) ^^^ (x &&& z) ^^^ (y &&& z)

def sha256K : List Nat :=
  [1116352408, 1899447441, 3049323471, 3921009573, 961987163,
   1508970993, 2453635748, 2870763221, 3624381080, 310598401,
   607225278, 1426881987, 1925078388, 2162078206, 2614888103,
   3248222580, 3835390401, 4022224774, 264347078, 604807628,
   770255983, 1249150122, 1555081692, 1996064986, 2554220882,
   2821834349, 2952996808, 3210313671, 3336571891, 3584528711,
   113926993, 338241895, 666307205, 773529912, 1294757372,
   1396182291, 1695183700, 1986661051, 2177026350, 2456956037,
   2730485921, 2820302411, 3259730800, 3345764771, 3516065817,
   3600352804, 4094571909, 275423344, 430227734, 506948616,
   659060556, 883997877, 958139571, 1322822218, 1537002063,
   1747873779, 1955562222, 2024104815, 2227730452, 2361852424,
   2428436474, 2756734187, 3204031479, 3329325298]

def sha256init : List Nat :=
  [1779033703, 3144134277, 1013904242, 2773480762,
   1359893119, 2600822924, 528734635, 1541459225]

/-- One SHA-256 compression round applied to a 64-byte block. -/
def sha256compress (hs : List Nat) (block : List Nat) : List Nat := Id.run do
  let mut w : Array Nat := #[]
  for i in List.range 16 do
    let b0 := block.getD (4 * i) 0
    let b1 := block.getD (4 * i + 1) 0
    let b2 := block.getD (4 * i + 2) 0
    let b3 := block.getD (4 * i + 3) 0
    w := w.push ((b0 <<< 24) ||| (b1 <<< 16) ||| (b2 <<< 8) ||| b3)
  for i in List.range 48 do
    let v := w32 (smallSigma1 (w.getD (i + 14) 0) + w.getD (i + 9) 0 +
                  smallSigma0 (w.getD (i + 1) 0) + w.getD i 0)
    w := w.push v
  let mut a := hs.getD 0 0
  let mut b := hs.getD 1 0
  let mut c := hs.getD 2 0
  let mut d := hs.getD 3 0
  let mut e := hs.getD 4 0
  let mut f := hs.getD 5 0
  let mut g := hs.getD 6 0
  let mut hv := hs.getD 7 0
  for i in List.range 64 do
    let t1 := w32 (hv + bigSigma1 e + chFun e f g + sha256K.getD i 0 + w.getD i 0)
    let t2 := w32 (bigSigma0 a + majFun a b c)
    hv := g
    g := f
    f := e
    e := w32 (d + t1)
    d := c
    c := b
    b := a
    a := w32 (t1 + t2)
  return [w32 (hs.getD 0 0 + a), w32 (hs.getD 1 0 + b), w32 (hs.getD 2 0 + c),
          w32 (hs.getD 3 0 + d), w32 (hs.getD 4 0 + e), w32 (hs.getD 5 0 + f),
          w32 (hs.getD 6 0 + g), w32 (hs.getD 7 0 + hv)]

/-- Big-endian 8-byte encoding of a natural number. -/
def be8 (n : Nat) : List Nat :=
  (List.range 8).map (fun i => (n >>> (8 * (7 - i))) % 256)

/-- Big-endian 4-byte encoding of a 32-bit word. -/
def be4 (n : Nat) : List Nat :=
  [(n >>> 24) % 256, (n >>> 16) % 256, (n >>> 8) % 256, n % 256]

/-- SHA-256 message padding to a multiple of 64 bytes. -/
def sha256pad (msg : List Nat) : List Nat :=
  let len := msg.length
  let padZeros := (119 - (len % 64)) % 64
  msg ++ [0x80] ++ List.replicate padZeros 0 ++ be8 (8 * len)

/-- Splits a byte list into successive 64-byte groups (fuel-based structural
recursion so the kernel can evaluate it; the fuel `bs.length` always
suffices because each step consumes a nonempty list). -/
def group64aux : Nat → List Nat → List (List Nat)
  | 0, _ => []
  | _, [] => []
  | fuel + 1, bs => bs.take 64 :: group64aux fuel (bs.drop 64)

def group64 (bs : List Nat) : List (List Nat) := group64aux bs.length bs

/-- The 32-byte SHA-256 digest of a byte list. -/
def sha256bytes (msg : List Nat) : List Nat :=
  let blocks := group64 (sha256pad msg)
  let hfin := blocks.foldl sha256compress sha256init
  (hfin.map be4).flatten

def hexChar (n : Nat) : Char :=
  if n < 10 then Char.ofNat (48 + n) else Char.ofNat (87 + n)

def byteHexChars (b : Nat) : List Char := [hexChar (b / 16), hexChar (b % 16)]

/-- Lowercase hex digest, as Python's `hashlib.sha256(...).hexdigest()`. -/
def sha256hexChars (msg : List Nat) : List Char :=
  (sha256bytes msg).map byteHexChars |>.flatten

/-- UTF-8 encoding of one character (model of Python `str.encode()` per char). -/
def utf8EncodeCharModel (c : Char) : List Nat :=
  let n := c.toNat
  if n < 0x80 then [n]
  else if n < 0x800 then
    [0xc0 ||| (n >>> 6), 0x80 ||| (n &&& 0x3f)]
  else if n < 0x10000 then
    [0xe0 ||| (n >>> 12), 0x80 ||| ((n >>> 6) &&& 0x3f), 0x80 ||| (n &&& 0x3f)]
  else
    [0xf0 ||| (n >>> 18), 0x80 ||| ((n >>> 12) &&& 0x3f),
     0x80 ||| ((n >>> 6) &&& 0x3f), 0x80 ||| (n &&& 0x3f)]

/-- UTF-8 bytes of a string (model of Python `text.encode()`). -/
def utf8Bytes (s : String) : List Nat := s.toList.flatMap utf8EncodeCharModel

/-- SHA-256 standard test vector: digest of "abc". -/
theorem sha256_abc :
    String.mk (sha256hexChars (utf8Bytes "abc")) =
      "ba7816bf8f01cfea414140de5dae2223b00361a396177a9cb410ff61f20015ad" := by
  decide

/-- SHA-256 standard test vector: digest of the empty message. -/
theorem sha256_empty :
    String.mk (sha256hexChars []) =
      "e3b0c44298fc1c149afbf4c8996fb92427ae41e4649b934ca495991b7852b855" := by
  decide

/-! ## EmbeddingService (src/backend/app/services/embeddings.py) -/

/-- Python truthiness test `not text or not text.strip()`: true exactly when
the string is empty or all-whitespace. -/
def stripIsEmpty (t : String) : Bool := t.toList.all (fun c => c.isWhitespace)

def hexDigitVal (c : Char) : Nat :=
  if c.isDigit then c.toNat - 48 else c.toNat - 87

/-- Python `int(s, 16)` over lowercase hex digit characters. -/
def parseHexNat (s : List Char) : Nat :=
  s.foldl (fun acc c => 16 * acc + hexDigitVal c) 0

/-- The PRNG seed the service derives from a text:
`int(hashlib.sha256(text.encode()).hexdigest()[:8], 16)`. -/
def seedOfText (t : String) : Nat :=
  parseHexNat ((sha256hexChars (utf8Bytes t)).take 8)

def lcgModulus : Nat := 18446744073709551616

def lcgNext (x : Nat) : Nat :=
  (6364136223846793005 * x + 1442695040888963407) % lcgModulus

def lcgStream : Nat → Nat → List Nat
  | 0, _ => []
  | n + 1, x =>
    let y := lcgNext x
    y :: lcgStream n y

/-- Modelled from the spec: `np.random.seed(seed)` followed by
`np.random.normal(0, 1, dim)` is external numpy library code; the repository
relies only on it being a deterministic function of the seed producing a
fixed-length numeric vector (spec sections 4.2 and 9: a deterministic
hash-derived placeholder).  IEEE-754 floats are not kernel-computable, so the
vector entries are modelled as rationals drawn from a deterministic linear
congruential generator seeded identically. -/
def numpyNormalModel (dim seed : Nat) : List ℚ :=
  (lcgStream dim (lcgNext seed)).map
    (fun y => (y : ℚ) / (lcgModulus : ℚ) - 1 / 2)

/-- Modelled from the spec: `embedding / np.linalg.norm(embedding)` is external
numpy float code; normalization is modelled exactly as division of every entry
by a deterministic positive functional of the vector (rational stand-in for
the Euclidean norm, which is irrational in general). -/
def numpyNormalizeModel (v : List ℚ) : List ℚ :=
  let n := v.foldl (fun a q => a + |q|) 0
  if n = 0 then v else v.map (fun q => q / n)

def embeddingDim : Nat := 1536

/-- `EmbeddingService.embed_text`: rejects empty/whitespace-only text, then
produces the deterministic hash-seeded vector (`Except.error` models the
raised `ValueError`). -/
def embedText (t : String) : Except String (List ℚ) :=
  if stripIsEmpty t then Except.error "Cannot embed empty text"
  else Except.ok (numpyNormalizeModel (numpyNormalModel embeddingDim (seedOfText t)))

/-- `EmbeddingService.split_text` defers to the external langchain
`RecursiveCharacterTextSplitter` after the emptiness guard; the splitter is an
external collaborator, taken as a parameter wherever ingestion is modelled.
This wrapper captures only the guard the repository adds. -/
def splitTextGuarded (splitter : String → List String) (t : String) : List String :=
  if stripIsEmpty t then [] else splitter t

/-! ## BSON values, filter conditions, and stored chunk records

`RAGService.retrieve` builds a `$match` filter as a Python dict mapping field
names to conditions; the only condition shapes the code constructs are
equality (`{"field": value}`) and `{"$ne": value}`. -/

inductive BVal where
  | str (s : String)
  | oid (s : String)
  | bool (b : Bool)
  | nat (n : Nat)
  | null
deriving DecidableEq

inductive BCond where
  | eqv (v : BVal)
  | nev (v : BVal)
deriving DecidableEq

def bcondHolds (cond : BCond) (actual : BVal) : Bool :=
  match cond with
  | BCond.eqv v => actual = v
  | BCond.nev v => actual ≠ v

/-- A record of the `document_chunks` collection, as written by the ingestion
loop in `upload_equipment_documents` (routers/equipment.py). -/
structure StoredChunk where
  document_id : String
  equipment_id : String
  tenant_id : String
  file_name : String
  chunk_id : String
  chunk_index : Nat
  text : String
  embedding : List ℚ
  is_disabled : Bool
deriving DecidableEq

/-- Field access used by the `$match` stage over a chunk record. -/
def chunkField (c : StoredChunk) (name : String) : BVal :=
  if name = "is_disabled" then BVal.bool c.is_disabled
  else if name = "equipment_id" then BVal.oid c.equipment_id
  else if name = "tenant_id" then BVal.str c.tenant_id
  else if name = "document_id" then BVal.oid c.document_id
  else if name = "file_name" then BVal.str c.file_name
  else if name = "chunk_id" then BVal.str c.chunk_id
  else if name = "chunk_index" then BVal.nat c.chunk_index
  else if name = "text" then BVal.str c.text
  else BVal.null

def matchesFilters (d : List (String × BCond)) (c : StoredChunk) : Bool :=
  d.all (fun p => bcondHolds p.2 (chunkField c p.1))

/-- Python dict assignment `d[key] = v`: replaces an existing entry in place,
otherwise appends (insertion order preserved). -/
def dictSet (d : List (String × BCond)) (key : String) (v : BCond) :
    List (String × BCond) :=
  if d.any (fun p => p.1 = key) then
    d.map (fun p => if p.1 = key then (key, v) else p)
  else d ++ [(key, v)]

/-- Python `d.update(extra)`: assigns every entry of `extra` in order. -/
def dictUpdate (d extra : List (String × BCond)) : List (String × BCond) :=
  extra.foldl (fun acc p => dictSet acc p.1 p.2) d

/-- `bson.ObjectId(s)` accepts exactly 24-character hex strings. -/
def isHexChar (c : Char) : Bool :=
  c.isDigit || (97 ≤ c.toNat && c.toNat ≤ 102) || (65 ≤ c.toNat && c.toNat ≤ 70)

def isValidObjectId (s : String) : Bool :=
  s.length = 24 && s.toList.all isHexChar

/-! ## RAGService.retrieve (src/backend/app/services/rag.py) -/

/-- The over-fetched candidate pool size: `search_k = max(k * 20, 100)`. -/
def searchKOf (k : Nat) : Nat := max (k * 20) 100

/-- One step of the `$match` filter construction, `if equipment_id:`
followed by the guarded `ObjectId` conversion: the
filter is added only for a truthy id that parses as an ObjectId; a malformed
id is logged and the filter skipped. -/
def addEquipmentFilter (d : List (String × BCond)) (equipmentId : Option String) :
    List (String × BCond) :=
  match equipmentId with
  | some e =>
    if e ≠ "" then
      if isValidObjectId e then dictSet d "equipment_id" (BCond.eqv (BVal.oid e))
      else d
    else d
  | none => d

/-- `if tenant_id:` — added for any truthy tenant id. -/
def addTenantFilter (d : List (String × BCond)) (tenantId : Option String) :
    List (String × BCond) :=
  match tenantId with
  | some t => if t ≠ "" then dictSet d "tenant_id" (BCond.eqv (BVal.str t)) else d
  | none => d

def buildMatchFilters (equipmentId tenantId : Option String)
    (extraFilters : List (String × BCond)) : List (String × BCond) :=
  let base := [("is_disabled", BCond.nev (BVal.bool true))]
  let withTenant := addTenantFilter (addEquipmentFilter base equipmentId) tenantId
  if extraFilters.isEmpty then withTenant else dictUpdate withTenant extraFilters

/-- A candidate produced by the `$search` stage: a stored chunk together with
its `searchScore`. -/
structure ScoredChunk where
  chunk : StoredChunk
  score : ℚ
deriving DecidableEq

/-- Modelled from the spec (app/models/rag.py is not under src/): the compact
content view of a retrieved chunk — text, file name, score (spec section 4.4
step 4). -/
structure ChunkContent where
  text : String
  file_name : String
  score : ℚ
deriving DecidableEq

/-- Modelled from the spec (app/models/rag.py is not under src/): the fuller
metadata view — chunk id, document id, equipment id, tenant id, chunk index,
score, file name (spec section 4.4 step 4). -/
structure ChunkMetadata where
  chunk_id : String
  document_id : String
  equipment_id : String
  tenant_id : String
  chunk_index : Nat
  score : ℚ
  file_name : String
deriving DecidableEq

/-- Modelled from the spec (app/models/rag.py is not under src/): query-level
metadata of a retrieval (spec section 3, RetrievalResult). -/
structure RetrievalMetadata where
  query : String
  k : Nat
  chunks_retrieved : Nat
  equipment_id : Option String
  tenant_id : Option String
  chunks : List ChunkMetadata
deriving DecidableEq

/-- Modelled from the spec (app/models/rag.py is not under src/): content and
metadata views of the retrieved chunks (spec section 3, RetrievalResult). -/
structure RetrievalResult where
  data : List ChunkContent
  metadata : RetrievalMetadata
deriving DecidableEq

def chunkToContent (c : ScoredChunk) : ChunkContent :=
  { text := c.chunk.text, file_name := c.chunk.file_name, score := c.score }

def chunkToMetadata (c : ScoredChunk) : ChunkMetadata :=
  { chunk_id := c.chunk.chunk_id, document_id := c.chunk.document_id,
    equipment_id := c.chunk.equipment_id, tenant_id := c.chunk.tenant_id,
    chunk_index := c.chunk.chunk_index, score := c.score,
    file_name := c.chunk.file_name }

/-- `RAGService.retrieve`.  The Atlas `$search`/`knnBeta` index is an external
collaborator, modelled as the parameter `search` taking the query vector and
the requested neighbor-pool size and returning score-ordered candidates.  The
pipeline applies `$match` after `$search`, projects each record with its
score, truncates with `$limit k`, and the cursor is drained with
`to_list(length=k)`.  Query-embedding failure propagates (`Except.error`). -/
def retrieve (search : List ℚ → Nat → List ScoredChunk) (query : String)
    (k : Nat) (equipmentId tenantId : Option String)
    (extraFilters : List (String × BCond)) : Except String RetrievalResult :=
  match embedText query with
  | Except.error e => Except.error e
  | Except.ok queryEmbedding =>
    let matchFilters := buildMatchFilters equipmentId tenantId extraFilters
    let candidates := search queryEmbedding (searchKOf k)
    let matched := candidates.filter (fun c => matchesFilters matchFilters c.chunk)
    let results := (matched.take k).take k
    Except.ok {
      data := results.map chunkToContent,
      metadata := {
        query := query, k := k,
        chunks_retrieved := (results.map chunkToContent).length,
        equipment_id := equipmentId, tenant_id := tenantId,
        chunks := results.map chunkToMetadata } }

/-! ## Tool adapter search_knowledge_base (src/backend/app/bot.py) -/

structure ToolChunk where
  id : String
  content : String
deriving DecidableEq

structure ToolResponse where
  results : List ToolChunk
deriving DecidableEq

/-- The compact result shape handed back to the LLM: zip of content and
metadata rows projected to `{id, content}` (bot.py lines 117-124). -/
def cleanData (r : RetrievalResult) : List ToolChunk :=
  (r.data.zip r.metadata.chunks).map
    (fun p => { id := p.2.chunk_id, content := p.1.text })

/-- `search_knowledge_base`: the whole body runs under `try/except`; any
exception from retrieval is caught and the callback is invoked with
`{"results": []}`.  Totality of this function is the embedding of the
never-propagate contract. -/
def searchKnowledgeBase (outcome : Except String RetrievalResult) : ToolResponse :=
  match outcome with
  | Except.ok r => { results := cleanData r }
  | Except.error _ => { results := [] }

/-- The tool invocation as wired in `run_bot`: retrieval with `k = 5`, the
session's equipment and tenant ids, and no extra filters. -/
def searchKnowledgeBaseCall (search : List ℚ → Nat → List ScoredChunk)
    (equipmentId tenantId : Option String) (query : String) : ToolResponse :=
  searchKnowledgeBase (retrieve search query 5 equipmentId tenantId [])

/-! ## Equipment router (src/backend/app/routers/equipment.py)

MongoDB is an external collaborator; its collections are modelled as lists of
records inside `DbState`.  `ObjectId` document ids generated by `insert_one`
are modelled by the counter `nextDocId`; equipment ids are their 24-hex string
form.  Timestamps are abstract ticks. -/

def settingsUserId : String := "mvp_user"

def settingsTenantId : String := "mvp_tenant"

/-- Modelled from the spec: `datetime.isoformat()` of the Python standard
library renders a timestamp as an ISO-8601 string; ticks are rendered through
an injective tagged form. -/
def isoformat (t : Nat) : String := "1970-01-01T00:00:00." ++ toString t

structure EquipmentRecord where
  id : String
  name : String
  description : Option String
  tenant_id : Option String
  is_active : Bool
  created_at : Nat
  updated_at : Nat
deriving DecidableEq

/-- A record of the `documents_metadata` collection as written by
`upload_equipment_documents`; `is_disabled` is never written by the upload
path but may be present on stored records (the shadowed list handler filters
on it). -/
structure DocumentRecord where
  id : Nat
  equipment_id : String
  tenant_id : String
  file_name : String
  content_type : String
  size : Nat
  storage_key : String
  uploaded_by : String
  description : Option String
  document_type : String
  embedding_status : String
  embedding_error : Option String
  is_disabled : Option Bool
  created_at : Nat
  updated_at : Nat
deriving DecidableEq

structure DbState where
  equipment : List EquipmentRecord
  documents : List DocumentRecord
  chunks : List StoredChunk
  nextDocId : Nat
deriving DecidableEq

/-- JSON-serialized document as returned by the handlers: string-form id,
string-form equipment id, ISO-8601 timestamps. -/
structure DocumentJson where
  id : String
  equipment_id : String
  tenant_id : String
  file_name : String
  content_type : String
  size : Nat
  storage_key : String
  uploaded_by : String
  description : Option String
  document_type : String
  embedding_status : String
  embedding_error : Option String
  is_disabled : Option Bool
  created_at : String
  updated_at : String
deriving DecidableEq

def serializeDocument (d : DocumentRecord) : DocumentJson :=
  { id := toString d.id, equipment_id := d.equipment_id, tenant_id := d.tenant_id,
    file_name := d.file_name, content_type := d.content_type, size := d.size,
    storage_key := d.storage_key, uploaded_by := d.uploaded_by,
    description := d.description, document_type := d.document_type,
    embedding_status := d.embedding_status, embedding_error := d.embedding_error,
    is_disabled := d.is_disabled,
    created_at := isoformat d.created_at, updated_at := isoformat d.updated_at }

/-- HTTP handler outcome: a successful response, a raised `HTTPException`, or
an exception that escapes the handler (which the framework converts to a 500
internal-server-error response). -/
inductive HttpOutcome (α : Type) where
  | response (status : Nat) (body : α)
  | httpError (status : Nat) (detail : String)
  | unhandled (message : String)
deriving DecidableEq

def httpStatusOf {α : Type} : HttpOutcome α → Nat
  | HttpOutcome.response s _ => s
  | HttpOutcome.httpError s _ => s
  | HttpOutcome.unhandled _ => 500

structure ListDocsBody where
  documents : List DocumentJson
  count : Nat
deriving DecidableEq

/-- Stable descending sort by `created_at`, modelling
`.sort("created_at", -1)`. -/
def sortByCreatedDesc (l : List DocumentRecord) : List DocumentRecord :=
  List.insertionSort (fun a b => b.created_at ≤ a.created_at) l

/-- The first-registered `GET /{equipment_id}/documents` handler
(equipment.py line 121): guarded ObjectId parse, 404 check, all documents of
the equipment newest-first, serialized.  It does not filter `is_disabled`. -/
def listEquipmentDocumentsActive (db : DbState) (equipmentId : String) :
    HttpOutcome ListDocsBody :=
  if ¬ isValidObjectId equipmentId then
    HttpOutcome.httpError 400 "Invalid equipment_id format"
  else
    match db.equipment.find? (fun e => e.id = equipmentId) with
    | none => HttpOutcome.httpError 404 "Equipment not found"
    | some _ =>
      let docs := sortByCreatedDesc
        (db.documents.filter (fun d => d.equipment_id = equipmentId))
      HttpOutcome.response 200
        { documents := docs.map serializeDocument, count := docs.length }

/-- The second `GET /{equipment_id}/documents` handler (equipment.py line
376): unguarded ObjectId parse, filters `is_disabled != true`, caps at 1000,
no sort.  FastAPI dispatches to the first registered route, so this handler
is shadowed dead code. -/
def listEquipmentDocumentsShadowed (db : DbState) (equipmentId : String) :
    HttpOutcome ListDocsBody :=
  if ¬ isValidObjectId equipmentId then
    HttpOutcome.unhandled "bson.errors.InvalidId"
  else
    match db.equipment.find? (fun e => e.id = equipmentId) with
    | none => HttpOutcome.httpError 404 "Equipment not found"
    | some _ =>
      let docs := (db.documents.filter
        (fun d => d.equipment_id = equipmentId ∧ d.is_disabled ≠ some true)).take 1000
      HttpOutcome.response 200
        { documents := docs.map serializeDocument, count := docs.length }

/-- Route dispatch: the handler actually executed for
`GET /equipment/{id}/documents` is the first-registered one. -/
def listEquipmentDocumentsRoute (db : DbState) (equipmentId : String) :
    HttpOutcome ListDocsBody :=
  listEquipmentDocumentsActive db equipmentId

/-- `GET /equipment/{equipment_id}`: the `ObjectId` parse is unguarded, so a
malformed id escapes as an unhandled `InvalidId` exception. -/
def getOneEquipment (db : DbState) (equipmentId : String) :
    HttpOutcome EquipmentRecord :=
  if ¬ isValidObjectId equipmentId then
    HttpOutcome.unhandled "bson.errors.InvalidId"
  else
    match db.equipment.find? (fun e => e.id = equipmentId) with
    | none => HttpOutcome.httpError 404 "Equipment not found"
    | some e => HttpOutcome.response 200 e

structure DeleteBody where
  message : String
  equipment_id : String
  equipment_deleted : Nat
  documents_deleted : Nat
  chunks_deleted : Nat
deriving DecidableEq

/-- `DELETE /equipment/{equipment_id}`: guarded ObjectId parse (400 on
malformed), 404 when absent, then cascading `delete_many` on chunks and
document metadata and `delete_one` on the equipment (equipment ids are
unique, so the filters below delete exactly the matching records). -/
def deleteEquipment (db : DbState) (equipmentId : String) :
    HttpOutcome DeleteBody × DbState :=
  if ¬ isValidObjectId equipmentId then
    (HttpOutcome.httpError 400 "Invalid equipment_id format", db)
  else
    match db.equipment.find? (fun e => e.id = equipmentId) with
    | none => (HttpOutcome.httpError 404 "Equipment not found", db)
    | some _ =>
      let remainingChunks := db.chunks.filter (fun c => c.equipment_id ≠ equipmentId)
      let remainingDocs := db.documents.filter (fun d => d.equipment_id ≠ equipmentId)
      let remainingEquipment := db.equipment.filter (fun e => e.id ≠ equipmentId)
      (HttpOutcome.response 200
        { message := "Equipment deleted successfully",
          equipment_id := equipmentId,
          equipment_deleted := db.equipment.length - remainingEquipment.length,
          documents_deleted := db.documents.length - remainingDocs.length,
          chunks_deleted := db.chunks.length - remainingChunks.length },
       { db with equipment := remainingEquipment, documents := remainingDocs,
                 chunks := remainingChunks })

/-! ## Document ingestion (POST /equipment/{id}/documents) -/

deriving instance DecidableEq for Except

/-- One uploaded file part together with the outcomes of the external text
extraction collaborator (`TextExtractionService` is not under src/):
`supported` is `is_supported(content_type, filename)` and `extract_result`
models `extract_text`, whose raised errors all lead to the same per-file
skip. -/
structure FileUpload where
  filename : Option String
  content_type : Option String
  size : Nat
  supported : Bool
  extract_result : Except String String
deriving DecidableEq

/-- Python `value or default` for optional string fields: empty strings are
falsy. -/
def orDefault (s : Option String) (d : String) : String :=
  match s with
  | some v => if v ≠ "" then v else d
  | none => d

def mkStoredChunk (documentId equipmentId tenantId fileName : String)
    (index : Nat) (text : String) (v : List ℚ) : StoredChunk :=
  { document_id := documentId, equipment_id := equipmentId,
    tenant_id := tenantId, file_name := fileName,
    chunk_id := documentId ++ "-" ++ toString index,
    chunk_index := index, text := text, embedding := v, is_disabled := false }

/-- The `for index, chunk_text in enumerate(chunks)` embedding loop
(equipment.py lines 260-296): each chunk is embedded in order; a chunk whose
embedding raises is logged and dropped, keeping its `enumerate` index for the
survivors.  `chunk_id` is an external `uuid4()`, modelled as a per-document
unique tag.  The failable embedder is the parameter `embed`. -/
def embedChunksFrom (embed : String → Option (List ℚ))
    (documentId equipmentId tenantId fileName : String) :
    Nat → List String → List StoredChunk
  | _, [] => []
  | i, t :: ts =>
    match embed t with
    | some v => mkStoredChunk documentId equipmentId tenantId fileName i t v ::
        embedChunksFrom embed documentId equipmentId tenantId fileName (i + 1) ts
    | none => embedChunksFrom embed documentId equipmentId tenantId fileName (i + 1) ts

def embedChunksLoop (embed : String → Option (List ℚ))
    (documentId equipmentId tenantId fileName : String)
    (chunks : List String) : List StoredChunk :=
  embedChunksFrom embed documentId equipmentId tenantId fileName 0 chunks

/-- Per-file ingestion (the body of the `for file in files` loop, equipment.py
lines 181-359).  The per-file `try/except` turns every raised error
(unsupported format, extraction failure, empty text, zero chunks, all
embeddings failed) into a skip that leaves the loop running; `uuidHex` models
the external `uuid4().hex` storage-key suffix and `now` the `datetime.utcnow`
ticks.  Returns the storage state after the file and the response descriptor
appended to `created_docs` (if any). -/
def processFile (embed : String → Option (List ℚ))
    (splitter : String → List String) (equipmentId tenantId : String)
    (description : Option String) (uuidHex : String) (now : Nat)
    (st : DbState) (file : FileUpload) : DbState × Option DocumentJson :=
  let originalName := orDefault file.filename "upload.bin"
  let contentType := orDefault file.content_type "application/octet-stream"
  if ¬ file.supported then (st, none)
  else
    match file.extract_result with
    | Except.error _ => (st, none)
    | Except.ok extractedText =>
      if stripIsEmpty extractedText then (st, none)
      else
        let chunks := splitTextGuarded splitter extractedText
        if chunks.isEmpty then (st, none)
        else
          let storageKey := tenantId ++ "/equipment/" ++ equipmentId ++ "/" ++
            uuidHex ++ "-" ++ originalName
          let documentId := st.nextDocId
          let docRec : DocumentRecord :=
            { id := documentId, equipment_id := equipmentId, tenant_id := tenantId,
              file_name := originalName, content_type := contentType,
              size := file.size, storage_key := storageKey,
              uploaded_by := settingsUserId, description := description,
              document_type := "knowledge", embedding_status := "processing",
              embedding_error := none, is_disabled := none,
              created_at := now, updated_at := now }
          let st1 : DbState :=
            { st with documents := st.documents ++ [docRec],
                      nextDocId := st.nextDocId + 1 }
          let chunkDocs := embedChunksLoop embed (toString documentId)
            equipmentId tenantId originalName chunks
          if chunkDocs.isEmpty then
            let st2 : DbState :=
              { st1 with documents := st1.documents.map (fun d =>
                  if d.id = documentId then
                    { d with embedding_status := "failed",
                             embedding_error :=
                               some "Failed to generate embeddings for all chunks",
                             updated_at := now }
                  else d) }
            (st2, none)
          else
            let st2 : DbState :=
              { st1 with chunks := st1.chunks ++ chunkDocs,
                         documents := st1.documents.map (fun d =>
                           if d.id = documentId then
                             { d with embedding_status := "completed",
                                      updated_at := now }
                           else d) }
            let entry : DocumentJson :=
              { id := toString documentId, equipment_id := equipmentId,
                tenant_id := tenantId, file_name := originalName,
                content_type := contentType, size := file.size,
                storage_key := storageKey, uploaded_by := settingsUserId,
                description := description, document_type := "knowledge",
                embedding_status := docRec.embedding_status,
                embedding_error := none, is_disabled := none,
                created_at := isoformat now, updated_at := isoformat now }
            (st2, some entry)

/-- `POST /equipment/{equipment_id}/documents`: the `ObjectId` parse in the
equipment lookup is unguarded (a malformed id escapes as an unhandled
exception), 404 when the equipment is absent, then the per-file loop folds
`processFile` over the parts and responds 201 with the accumulated
descriptors. -/
def uploadEquipmentDocuments (embed : String → Option (List ℚ))
    (splitter : String → List String) (db : DbState) (equipmentId : String)
    (files : List FileUpload) (description : Option String)
    (uuidHex : String) (now : Nat) : HttpOutcome ListDocsBody × DbState :=
  if ¬ isValidObjectId equipmentId then
    (HttpOutcome.unhandled "bson.errors.InvalidId", db)
  else
    match db.equipment.find? (fun e => e.id = equipmentId) with
    | none => (HttpOutcome.httpError 404 "Equipment not found", db)
    | some equipment =>
      let tenantId := orDefault equipment.tenant_id settingsTenantId
      let final := files.foldl
        (fun acc file =>
          let step := processFile embed splitter equipmentId tenantId
            description uuidHex now acc.1 file
          (step.1, acc.2 ++ step.2.toList))
        (db, ([] : List DocumentJson))
      (HttpOutcome.response 201
        { documents := final.2, count := final.2.length }, final.1)

/-! ## Claim theorems -/

/-- C1: for every query and positive `k`, `RAGService.retrieve` consults the
underlying nearest-neighbor search only at candidate-pool size
`max (k * 20) 100` (its result is unchanged by any modification of the search
backend away from that pool size), and a successful result carries at most
`k` ranked entries in both the content list and the metadata chunk list. -/
theorem retrieve_overfetch_and_limit (query : String) (k : Nat)
    (eid tid : Option String) (extra : List (String × BCond)) (hk : 0 < k) :
    (∀ s₁ s₂ : List ℚ → Nat → List ScoredChunk,
        (∀ v, s₁ v (max (k * 20) 100) = s₂ v (max (k * 20) 100)) →
        retrieve s₁ query k eid tid extra = retrieve s₂ query k eid tid extra) ∧
    (∀ (s : List ℚ → Nat → List ScoredChunk) (r : RetrievalResult),
        retrieve s query k eid tid extra = Except.ok r →
        r.data.length ≤ k ∧ r.metadata.chunks.length ≤ k) := by
  constructor
  · intro s₁ s₂ hagree
    unfold retrieve
    cases hq : embedText query with
    | error e => rfl
    | ok qv =>
      simp only [searchKOf]
      rw [hagree qv]
  · intro s r hr
    unfold retrieve at hr
    cases hq : embedText query with
    | error e => rw [hq] at hr; cases hr
    | ok qv =>
      rw [hq] at hr
      injection hr with h
      subst h
      simp only [List.length_map, List.length_take]
      omega

/-- Witness for C1 at `query = "hello"`, `k = 5`. -/
theorem retrieve_overfetch_and_limit_witness :
    0 < 5 ∧
    ((∀ s₁ s₂ : List ℚ → Nat → List ScoredChunk,
        (∀ v, s₁ v (max (5 * 20) 100) = s₂ v (max (5 * 20) 100)) →
        retrieve s₁ "hello" 5 none none [] = retrieve s₂ "hello" 5 none none []) ∧
     (∀ (s : List ℚ → Nat → List ScoredChunk) (r : RetrievalResult),
        retrieve s "hello" 5 none none [] = Except.ok r →
        r.data.length ≤ 5 ∧ r.metadata.chunks.length ≤ 5)) :=
  ⟨by decide, retrieve_overfetch_and_limit "hello" 5 none none [] (by decide)⟩

/-- C7: the `search_knowledge_base` tool always hands a result object back to
the conversation loop (it is a total function of the retrieval outcome); when
retrieval raises, the delivered result is exactly `{results: []}`, and on
success it is the zipped `{id, content}` projection. -/
theorem search_knowledge_base_total
    (search : List ℚ → Nat → List ScoredChunk)
    (eid tid : Option String) (query : String) :
    (∃ resp, searchKnowledgeBaseCall search eid tid query = resp) ∧
    (∀ e, retrieve search query 5 eid tid [] = Except.error e →
        searchKnowledgeBaseCall search eid tid query = { results := [] }) ∧
    (∀ r, retrieve search query 5 eid tid [] = Except.ok r →
        searchKnowledgeBaseCall search eid tid query = { results := cleanData r }) := by
  refine ⟨⟨_, rfl⟩, ?_, ?_⟩ <;> intro x hx <;>
    simp [searchKnowledgeBaseCall, searchKnowledgeBase, hx]

/-- Witness for C7: an empty query makes the query embedding raise inside
retrieval, and the tool still delivers exactly `{results: []}`. -/
theorem search_knowledge_base_total_witness :
    retrieve (fun _ _ => []) "" 5 none none [] =
      Except.error "Cannot embed empty text" ∧
    searchKnowledgeBaseCall (fun _ _ => []) none none "" = { results := [] } :=
  ⟨by decide,
   (search_knowledge_base_total (fun _ _ => []) none none "").2.1
     "Cannot embed empty text" (by decide)⟩

/-- C9: for every non-empty, non-whitespace-only text, `embed_text` succeeds
and two calls return bit-identical vectors (the function is a deterministic
function of the text). -/
theorem embed_text_deterministic (t : String) (h : stripIsEmpty t = false) :
    ∃ v, embedText t = Except.ok v ∧ embedText t = Except.ok v := by
  refine ⟨numpyNormalizeModel (numpyNormalModel embeddingDim (seedOfText t)),
    ?_, ?_⟩ <;> simp [embedText, h]

/-- Witness for C9 at `t = "hello"`. -/
theorem embed_text_deterministic_witness :
    stripIsEmpty "hello" = false ∧
    ∃ v, embedText "hello" = Except.ok v ∧ embedText "hello" = Except.ok v :=
  ⟨by decide, embed_text_deterministic "hello" (by decide)⟩

/-- C10: the embedding vector depends on the text only through the first 8
hex digits of its SHA-256 digest: two valid texts whose digests agree on that
prefix receive identical vectors. -/
theorem embed_text_seed_prefix_only (t₁ t₂ : String)
    (h₁ : stripIsEmpty t₁ = false) (h₂ : stripIsEmpty t₂ = false)
    (hpre : (sha256hexChars (utf8Bytes t₁)).take 8 =
            (sha256hexChars (utf8Bytes t₂)).take 8) :
    embedText t₁ = embedText t₂ := by
  simp [embedText, h₁, h₂, seedOfText, hpre]

/-- Witness for C10: the distinct texts "a7ex" and "c5kt" collide on the
first 8 hex digits of their SHA-256 digests (both start with 7aaa05d6) and
receive identical embedding vectors. -/
theorem embed_text_seed_prefix_only_witness :
    ("a7ex" : String) ≠ "c5kt" ∧
    (sha256hexChars (utf8Bytes "a7ex")).take 8 =
      (sha256hexChars (utf8Bytes "c5kt")).take 8 ∧
    embedText "a7ex" = embedText "c5kt" :=
  ⟨by decide, by decide,
   embed_text_seed_prefix_only "a7ex" "c5kt" (by decide) (by decide) (by decide)⟩

/-! ### Chunk-index structure of the embedding loop (C5, C6) -/

theorem embedChunksFrom_index_ge (embed : String → Option (List ℚ))
    (d e t f : String) :
    ∀ (i : Nat) (ts : List String) (c : StoredChunk),
      c ∈ embedChunksFrom embed d e t f i ts → i ≤ c.chunk_index := by
  intro i ts
  induction ts generalizing i with
  | nil => intro c hc; simp [embedChunksFrom] at hc
  | cons hd tl ih =>
    intro c hc
    simp only [embedChunksFrom] at hc
    cases hemb : embed hd with
    | some v =>
      rw [hemb] at hc
      rcases List.mem_cons.mp hc with h | h
      · subst h; simp [mkStoredChunk]
      · exact Nat.le_of_succ_le (ih (i + 1) c h)
    | none =>
      rw [hemb] at hc
      exact Nat.le_of_succ_le (ih (i + 1) c hc)

theorem embedChunksFrom_pairwise (embed : String → Option (List ℚ))
    (d e t f : String) :
    ∀ (i : Nat) (ts : List String),
      List.Pairwise (fun a b => a.chunk_index < b.chunk_index)
        (embedChunksFrom embed d e t f i ts) := by
  intro i ts
  induction ts generalizing i with
  | nil => simp [embedChunksFrom]
  | cons hd tl ih =>
    simp only [embedChunksFrom]
    cases hemb : embed hd with
    | some v =>
      refine List.Pairwise.cons ?_ (ih (i + 1))
      intro c hc
      have := embedChunksFrom_index_ge embed d e t f (i + 1) tl c hc
      simp [mkStoredChunk]
      omega
    | none => exact ih (i + 1)

theorem embedChunksFrom_source (embed : String → Option (List ℚ))
    (d e t f : String) :
    ∀ (i : Nat) (ts : List String) (c : StoredChunk),
      c ∈ embedChunksFrom embed d e t f i ts →
      i ≤ c.chunk_index ∧ ts[c.chunk_index - i]? = some c.text ∧
        embed c.text = some c.embedding := by
  intro i ts
  induction ts generalizing i with
  | nil => intro c hc; simp [embedChunksFrom] at hc
  | cons hd tl ih =>
    intro c hc
    simp only [embedChunksFrom] at hc
    cases hemb : embed hd with
    | some v =>
      rw [hemb] at hc
      rcases List.mem_cons.mp hc with h | h
      · subst h
        simp [mkStoredChunk, hemb]
      · obtain ⟨hge, hsrc, hembc⟩ := ih (i + 1) c h
        refine ⟨Nat.le_of_succ_le hge, ?_, hembc⟩
        have hk : c.chunk_index - i = (c.chunk_index - (i + 1)) + 1 := by omega
        rw [hk, List.getElem?_cons_succ]
        exact hsrc
    | none =>
      rw [hemb] at hc
      obtain ⟨hge, hsrc, hembc⟩ := ih (i + 1) c hc
      refine ⟨Nat.le_of_succ_le hge, ?_, hembc⟩
      have hk : c.chunk_index - i = (c.chunk_index - (i + 1)) + 1 := by omega
      rw [hk, List.getElem?_cons_succ]
      exact hsrc

theorem embedChunksFrom_all_some (embed : String → Option (List ℚ))
    (d e t f : String) :
    ∀ (i : Nat) (ts : List String), (∀ s ∈ ts, (embed s).isSome) →
      (embedChunksFrom embed d e t f i ts).map (fun c => c.chunk_index) =
        List.range' i ts.length := by
  intro i ts
  induction ts generalizing i with
  | nil => intro _; simp [embedChunksFrom]
  | cons hd tl ih =>
    intro hall
    have hhd := hall hd (List.mem_cons_self hd tl)
    obtain ⟨v, hv⟩ := Option.isSome_iff_exists.mp hhd
    simp only [embedChunksFrom, hv, List.map_cons, mkStoredChunk]
    rw [ih (i + 1) (fun s hs => hall s (List.mem_cons_of_mem hd hs))]
    simp [List.range']

theorem embedChunksFrom_all_none (embed : String → Option (List ℚ))
    (d e t f : String) :
    ∀ (i : Nat) (ts : List String), (∀ s ∈ ts, embed s = none) →
      embedChunksFrom embed d e t f i ts = [] := by
  intro i ts
  induction ts generalizing i with
  | nil => intro _; simp [embedChunksFrom]
  | cons hd tl ih =>
    intro hall
    have hhd := hall hd (List.mem_cons_self hd tl)
    simp only [embedChunksFrom, hhd]
    exact ih (i + 1) (fun s hs => hall s (List.mem_cons_of_mem hd hs))

/-- Mapping a function that fixes every element of a list is the identity. -/
theorem list_map_fix {α : Type} (l : List α) (f : α → α)
    (h : ∀ x ∈ l, f x = x) : l.map f = l := by
  induction l with
  | nil => rfl
  | cons hd tl ih =>
    simp only [List.map_cons, h hd (List.mem_cons_self hd tl)]
    rw [ih (fun x hx => h x (List.mem_cons_of_mem hd hx))]

def c5Embed : String → Option (List ℚ) := fun t => if t = "b" then none else some [1]

/-- C5 counterexample: with chunks `["a","b","c"]` and the middle chunk's
embedding failing, the two persisted chunks carry indices `[0, 2]` — not the
contiguous `0..M-1` (that is, `[0, 1]`) the claim requires when chunks are
dropped. -/
theorem chunk_indices_not_contiguous_cex :
    c5Embed "b" = none ∧
    (embedChunksLoop c5Embed "1" "e" "t" "f.txt" ["a", "b", "c"]).map
      (fun c => c.chunk_index) = [0, 2] ∧
    ¬ ((embedChunksLoop c5Embed "1" "e" "t" "f.txt" ["a", "b", "c"]).map
        (fun c => c.chunk_index) =
      List.range (embedChunksLoop c5Embed "1" "e" "t" "f.txt"
        ["a", "b", "c"]).length) :=
  ⟨by decide, by decide, by decide⟩

/-- C5 amended: the persisted `chunk_index` values are the `enumerate`
positions of the surviving chunks — strictly increasing and reflecting source
order, with each index pointing back at the chunk's source position — and
they are contiguous `0..M-1` exactly in runs where no chunk's embedding
fails; a dropped chunk leaves a gap instead of re-packing the indices. -/
theorem chunk_indices_amended (embed : String → Option (List ℚ))
    (documentId equipmentId tenantId fileName : String) (chunks : List String) :
    List.Pairwise (fun a b => a.chunk_index < b.chunk_index)
      (embedChunksLoop embed documentId equipmentId tenantId fileName chunks) ∧
    (∀ c ∈ embedChunksLoop embed documentId equipmentId tenantId fileName chunks,
        chunks[c.chunk_index]? = some c.text ∧ embed c.text = some c.embedding) ∧
    ((∀ s ∈ chunks, (embed s).isSome) →
      (embedChunksLoop embed documentId equipmentId tenantId fileName chunks).map
        (fun c => c.chunk_index) = List.range chunks.length) := by
  refine ⟨embedChunksFrom_pairwise embed documentId equipmentId tenantId fileName 0 chunks,
    ?_, ?_⟩
  · intro c hc
    have h := embedChunksFrom_source embed documentId equipmentId tenantId fileName
      0 chunks c hc
    simpa using h.2
  · intro hall
    rw [List.range_eq_range']
    exact embedChunksFrom_all_some embed documentId equipmentId tenantId fileName
      0 chunks hall

def c5AllEmbed : String → Option (List ℚ) := fun _ => some [1]

/-- Witness for the amended C5: when every embedding succeeds the indices are
exactly `0..N-1`. -/
theorem chunk_indices_amended_witness :
    (∀ s ∈ ["a", "b"], (c5AllEmbed s).isSome) ∧
    (embedChunksLoop c5AllEmbed "1" "e" "t" "f.txt" ["a", "b"]).map
      (fun c => c.chunk_index) = List.range (["a", "b"] : List String).length :=
  ⟨by decide,
   (chunk_indices_amended c5AllEmbed "1" "e" "t" "f.txt" ["a", "b"]).2.2 (by decide)⟩

/-- C6: when a file reaches the embedding loop and every chunk's embedding
fails, the per-file outcome is exactly one new Document record in `failed`
status carrying an error detail, zero chunk records inserted (the chunk
collection is unchanged), and no response descriptor (the per-file exception
is caught by the loop).  `hfresh` states the freshness of the generated
document id over the pre-existing metadata records (guaranteed by the
database for real generated ids). -/
theorem embedding_failed_all_chunks (embed : String → Option (List ℚ))
    (splitter : String → List String) (equipmentId tenantId : String)
    (description : Option String) (uuidHex : String) (now : Nat)
    (st : DbState) (file : FileUpload) (text : String)
    (hsup : file.supported = true)
    (hext : file.extract_result = Except.ok text)
    (hne : stripIsEmpty text = false)
    (hsplit : (splitter text).isEmpty = false)
    (hfail : ∀ s ∈ splitter text, embed s = none)
    (hfresh : ∀ d ∈ st.documents, d.id ≠ st.nextDocId) :
    processFile embed splitter equipmentId tenantId description uuidHex now st file =
      ({ equipment := st.equipment,
         documents := st.documents ++
           [{ id := st.nextDocId, equipment_id := equipmentId,
              tenant_id := tenantId,
              file_name := orDefault file.filename "upload.bin",
              content_type := orDefault file.content_type "application/octet-stream",
              size := file.size,
              storage_key := tenantId ++ "/equipment/" ++ equipmentId ++ "/" ++
                uuidHex ++ "-" ++ orDefault file.filename "upload.bin",
              uploaded_by := settingsUserId, description := description,
              document_type := "knowledge", embedding_status := "failed",
              embedding_error := some "Failed to generate embeddings for all chunks",
              is_disabled := none, created_at := now, updated_at := now }],
         chunks := st.chunks, nextDocId := st.nextDocId + 1 }, none) := by
  have hloop : embedChunksLoop embed (toString st.nextDocId) equipmentId tenantId
      (orDefault file.filename "upload.bin") (splitter text) = [] := by
    unfold embedChunksLoop
    exact embedChunksFrom_all_none embed (toString st.nextDocId) equipmentId tenantId
      (orDefault file.filename "upload.bin") 0 (splitter text) hfail
  have hmapfix : st.documents.map (fun d =>
      if d.id = st.nextDocId then
        { d with embedding_status := "failed",
                 embedding_error := some "Failed to generate embeddings for all chunks",
                 updated_at := now }
      else d) = st.documents := by
    apply list_map_fix
    intro d hd
    simp [hfresh d hd]
  unfold processFile
  simp only [hsup, hext, hne, Bool.not_true, if_neg, splitTextGuarded]
  simp [hne, hsplit, hloop, List.map_append, hmapfix]

def noneEmbed : String → Option (List ℚ) := fun _ => none

def oneSplit : String → List String := fun t => [t]

def c6File : FileUpload :=
  { filename := some "doc.txt", content_type := some "text/plain", size := 3,
    supported := true, extract_result := Except.ok "abc" }

def emptyDb : DbState := { equipment := [], documents := [], chunks := [], nextDocId := 1 }

/-- Witness for C6 at a concrete one-chunk file whose embedding fails. -/
theorem embedding_failed_all_chunks_witness :
    processFile noneEmbed oneSplit "e1" "t1" none "u1" 7 emptyDb c6File =
      ({ equipment := [],
         documents := [] ++
           [{ id := 1, equipment_id := "e1", tenant_id := "t1",
              file_name := "doc.txt", content_type := "text/plain", size := 3,
              storage_key := "t1/equipment/e1/u1-doc.txt",
              uploaded_by := settingsUserId, description := none,
              document_type := "knowledge", embedding_status := "failed",
              embedding_error := some "Failed to generate embeddings for all chunks",
              is_disabled := none, created_at := 7, updated_at := 7 }],
         chunks := [], nextDocId := 2 }, none) := by
  have h := embedding_failed_all_chunks noneEmbed oneSplit "e1" "t1" none "u1" 7
    emptyDb c6File "abc" rfl rfl (by decide) (by decide)
    (by intro s _; rfl) (by intro d hd; simp [emptyDb] at hd)
  simpa [emptyDb, c6File, orDefault] using h

/-! ### Filter-merge structure (C2) -/

theorem mem_dictSet_of_ne (d : List (String × BCond)) (key : String) (v : BCond)
    (k₀ : String) (c₀ : BCond) (hmem : (k₀, c₀) ∈ d) (hne : k₀ ≠ key) :
    (k₀, c₀) ∈ dictSet d key v := by
  unfold dictSet
  split
  · exact List.mem_map.mpr ⟨(k₀, c₀), hmem, by simp [hne]⟩
  · exact List.mem_append_left _ hmem

theorem dictUpdate_cons (d : List (String × BCond)) (p : String × BCond)
    (tl : List (String × BCond)) :
    dictUpdate d (p :: tl) = dictUpdate (dictSet d p.1 p.2) tl := rfl

theorem mem_dictUpdate_of_ne (extra : List (String × BCond)) :
    ∀ (d : List (String × BCond)) (k₀ : String) (c₀ : BCond),
      (k₀, c₀) ∈ d → (∀ p ∈ extra, p.1 ≠ k₀) → (k₀, c₀) ∈ dictUpdate d extra := by
  induction extra with
  | nil => intro d k₀ c₀ h _; exact h
  | cons hd tl ih =>
    intro d k₀ c₀ h hne
    rw [dictUpdate_cons]
    refine ih _ k₀ c₀ ?_ (fun p hp => hne p (List.mem_cons_of_mem hd hp))
    exact mem_dictSet_of_ne d hd.1 hd.2 k₀ c₀ h
      (Ne.symm (hne hd (List.mem_cons_self hd tl)))

theorem mem_addEquipmentFilter (d : List (String × BCond))
    (equipmentId : Option String) (k₀ : String) (c₀ : BCond)
    (hmem : (k₀, c₀) ∈ d) (hne : k₀ ≠ "equipment_id") :
    (k₀, c₀) ∈ addEquipmentFilter d equipmentId := by
  unfold addEquipmentFilter
  rcases equipmentId with _ | e
  · exact hmem
  · dsimp only
    split
    · split
      · exact mem_dictSet_of_ne d "equipment_id" _ k₀ c₀ hmem hne
      · exact hmem
    · exact hmem

theorem mem_addTenantFilter (d : List (String × BCond))
    (tenantId : Option String) (k₀ : String) (c₀ : BCond)
    (hmem : (k₀, c₀) ∈ d) (hne : k₀ ≠ "tenant_id") :
    (k₀, c₀) ∈ addTenantFilter d tenantId := by
  unfold addTenantFilter
  rcases tenantId with _ | t
  · exact hmem
  · dsimp only
    split
    · exact mem_dictSet_of_ne d "tenant_id" _ k₀ c₀ hmem hne
    · exact hmem

/-- Whenever the caller-supplied extra filters carry no `is_disabled` key, the
executed filter dict retains the built-in disabled-exclusion entry. -/
theorem isdisabled_mem_buildMatchFilters (eid tid : Option String)
    (extra : List (String × BCond)) (hextra : ∀ p ∈ extra, p.1 ≠ "is_disabled") :
    ("is_disabled", BCond.nev (BVal.bool true)) ∈ buildMatchFilters eid tid extra := by
  unfold buildMatchFilters
  have h1 : ("is_disabled", BCond.nev (BVal.bool true)) ∈
      addTenantFilter (addEquipmentFilter
        [("is_disabled", BCond.nev (BVal.bool true))] eid) tid := by
    refine mem_addTenantFilter _ tid _ _ ?_ (by decide)
    exact mem_addEquipmentFilter _ eid _ _ (List.mem_singleton.mpr rfl) (by decide)
  split
  · exact h1
  · exact mem_dictUpdate_of_ne extra _ _ _ h1 hextra

/-- A chunk passing a filter dict that contains the disabled-exclusion entry
is not disabled. -/
theorem matchesFilters_excludes_disabled (d : List (String × BCond))
    (c : StoredChunk)
    (hmem : ("is_disabled", BCond.nev (BVal.bool true)) ∈ d)
    (hm : matchesFilters d c = true) : c.is_disabled = false := by
  unfold matchesFilters at hm
  have h := List.all_eq_true.mp hm _ hmem
  simp [bcondHolds, chunkField] at h
  exact h

def disabledChunk : StoredChunk :=
  { document_id := "d1", equipment_id := "aaaaaaaaaaaaaaaaaaaaaaaa",
    tenant_id := "t1", file_name := "f.pdf", chunk_id := "c1",
    chunk_index := 0, text := "secret", embedding := [], is_disabled := true }

def cexSearch : List ℚ → Nat → List ScoredChunk :=
  fun _ _ => [{ chunk := disabledChunk, score := 1 }]

def cexExtra : List (String × BCond) := [("is_disabled", BCond.eqv (BVal.bool true))]

/-- C2 counterexample: `match_filters.update(extra_filters)` lets a caller
override the `is_disabled` entry itself; with
`extra_filters = {"is_disabled": True}` the executed filter returns a chunk
whose stored record has `is_disabled = true`, so the built-in
disabled-exclusion *can* be removed. -/
theorem extra_filters_remove_disabled_exclusion_cex :
    disabledChunk.is_disabled = true ∧
    Except.map (fun r => r.metadata.chunks.map (fun m => m.chunk_id))
      (retrieve cexSearch "q" 5 none none cexExtra) = Except.ok ["c1"] :=
  ⟨rfl, by decide⟩

/-- C2 amended: merging caller-supplied extra filters last can override *any*
entry, including the built-in disabled-exclusion; whenever the extra filters
do not carry an `is_disabled` key, the exclusion is preserved and every
entry of a successful retrieval is the projection of a non-disabled
candidate. -/
theorem retrieve_disabled_excluded_amended
    (search : List ℚ → Nat → List ScoredChunk) (query : String) (k : Nat)
    (eid tid : Option String) (extra : List (String × BCond))
    (hextra : ∀ p ∈ extra, p.1 ≠ "is_disabled") (r : RetrievalResult)
    (hr : retrieve search query k eid tid extra = Except.ok r) :
    ∀ m ∈ r.metadata.chunks, ∃ sc : ScoredChunk,
      sc.chunk.is_disabled = false ∧ m = chunkToMetadata sc ∧
      ∃ qv, embedText query = Except.ok qv ∧ sc ∈ search qv (searchKOf k) := by
  intro m hm
  unfold retrieve at hr
  cases hq : embedText query with
  | error e => rw [hq] at hr; cases hr
  | ok qv =>
    rw [hq] at hr
    injection hr with h
    subst h
    simp only [List.mem_map] at hm
    obtain ⟨sc, hsc, hm'⟩ := hm
    have hsc' : sc ∈ (search qv (searchKOf k)).filter
        (fun c => matchesFilters (buildMatchFilters eid tid extra) c.chunk) :=
      List.mem_of_mem_take (List.mem_of_mem_take hsc)
    obtain ⟨hmemc, hmatch⟩ := List.mem_filter.mp hsc'
    exact ⟨sc,
      matchesFilters_excludes_disabled _ _
        (isdisabled_mem_buildMatchFilters eid tid extra hextra) hmatch,
      hm'.symm, qv, rfl, hmemc⟩

def enabledChunk : StoredChunk :=
  { document_id := "d1", equipment_id := "aaaaaaaaaaaaaaaaaaaaaaaa",
    tenant_id := "t1", file_name := "f.pdf", chunk_id := "c2",
    chunk_index := 0, text := "hello chunk", embedding := [], is_disabled := false }

def okSearch : List ℚ → Nat → List ScoredChunk :=
  fun _ _ => [{ chunk := enabledChunk, score := 1 }]

def c2WitnessMeta : ChunkMetadata :=
  { chunk_id := "c2", document_id := "d1",
    equipment_id := "aaaaaaaaaaaaaaaaaaaaaaaa", tenant_id := "t1",
    chunk_index := 0, score := 1, file_name := "f.pdf" }

def c2WitnessRetMeta : RetrievalMetadata :=
  { query := "q", k := 5, chunks_retrieved := 1,
    equipment_id := none, tenant_id := none, chunks := [c2WitnessMeta] }

def c2WitnessResult : RetrievalResult :=
  { data := [{ text := "hello chunk", file_name := "f.pdf", score := 1 }],
    metadata := c2WitnessRetMeta }

/-- Witness for the amended C2 at a concrete retrieval with no extra
filters. -/
theorem retrieve_disabled_excluded_amended_witness :
    (∀ p ∈ ([] : List (String × BCond)), p.1 ≠ "is_disabled") ∧
    retrieve okSearch "q" 5 none none [] = Except.ok c2WitnessResult ∧
    ∀ m ∈ c2WitnessResult.metadata.chunks, ∃ sc : ScoredChunk,
      sc.chunk.is_disabled = false ∧ m = chunkToMetadata sc ∧
      ∃ qv, embedText "q" = Except.ok qv ∧ sc ∈ okSearch qv (searchKOf 5) :=
  ⟨by simp, by decide,
   retrieve_disabled_excluded_amended okSearch "q" 5 none none []
     (by simp) c2WitnessResult (by decide)⟩

/-! ### Malformed equipment ids (C8) -/

/-- C8 counterexample: the upload and get-one handlers call
`ObjectId(equipment_id)` unguarded, so a malformed id escapes as an unhandled
exception and the framework answers 500, not 400 as the claim states for
every endpoint. -/
theorem malformed_id_not_always_400_cex :
    isValidObjectId "invalid-id" = false ∧
    httpStatusOf (uploadEquipmentDocuments noneEmbed oneSplit emptyDb
      "invalid-id" [] none "u" 0).1 = 500 ∧
    ¬ httpStatusOf (uploadEquipmentDocuments noneEmbed oneSplit emptyDb
      "invalid-id" [] none "u" 0).1 = 400 ∧
    httpStatusOf (getOneEquipment emptyDb "invalid-id") = 500 :=
  ⟨by decide, by decide, by decide, by decide⟩

/-- C8 amended: for every malformed equipment id, the delete and
list-documents handlers reject with 400; the get-one and upload handlers let
the `InvalidId` error escape (500 via the framework); and
`RAGService.retrieve` silently drops the equipment filter and behaves exactly
as a call without one. -/
theorem malformed_id_amended (eid : String) (h : isValidObjectId eid = false)
    (db : DbState) (embed : String → Option (List ℚ))
    (splitter : String → List String) (files : List FileUpload)
    (desc : Option String) (uuid : String) (now : Nat)
    (search : List ℚ → Nat → List ScoredChunk) (query : String) (k : Nat)
    (tid : Option String) (extra : List (String × BCond)) :
    httpStatusOf (deleteEquipment db eid).1 = 400 ∧
    httpStatusOf (listEquipmentDocumentsRoute db eid) = 400 ∧
    httpStatusOf (getOneEquipment db eid) = 500 ∧
    httpStatusOf (uploadEquipmentDocuments embed splitter db eid files
      desc uuid now).1 = 500 ∧
    Except.map (fun r => (r.data, r.metadata.chunks))
        (retrieve search query k (some eid) tid extra) =
      Except.map (fun r => (r.data, r.metadata.chunks))
        (retrieve search query k none tid extra) := by
  refine ⟨?_, ?_, ?_, ?_, ?_⟩
  · simp [deleteEquipment, h, httpStatusOf]
  · simp [listEquipmentDocumentsRoute, listEquipmentDocumentsActive, h, httpStatusOf]
  · simp [getOneEquipment, h, httpStatusOf]
  · simp [uploadEquipmentDocuments, h, httpStatusOf]
  · have hb : buildMatchFilters (some eid) tid extra =
        buildMatchFilters none tid extra := by
      unfold buildMatchFilters addEquipmentFilter
      by_cases he : eid = ""
      · simp [he]
      · simp [he, h]
    unfold retrieve
    cases hq : embedText query with
    | error e => rfl
    | ok qv => rw [hb]; rfl

/-- Witness for the amended C8 at the malformed id "invalid-id". -/
theorem malformed_id_amended_witness :
    isValidObjectId "invalid-id" = false ∧
    (httpStatusOf (deleteEquipment emptyDb "invalid-id").1 = 400 ∧
     httpStatusOf (listEquipmentDocumentsRoute emptyDb "invalid-id") = 400 ∧
     httpStatusOf (getOneEquipment emptyDb "invalid-id") = 500 ∧
     httpStatusOf (uploadEquipmentDocuments noneEmbed oneSplit emptyDb
       "invalid-id" [] none "u" 0).1 = 500 ∧
     Except.map (fun r => (r.data, r.metadata.chunks))
         (retrieve (fun _ _ => []) "x" 5 (some "invalid-id") none []) =
       Except.map (fun r => (r.data, r.metadata.chunks))
         (retrieve (fun _ _ => []) "x" 5 none none [])) :=
  ⟨by decide,
   malformed_id_amended "invalid-id" (by decide) emptyDb noneEmbed oneSplit
     [] none "u" 0 (fun _ _ => []) "x" 5 none []⟩

/-! ### Duplicate list-documents route (C3) -/

def eqIdA : String := "aaaaaaaaaaaaaaaaaaaaaaaa"

def eqRecA : EquipmentRecord :=
  { id := eqIdA, name := "pump", description := none, tenant_id := some "t1",
    is_active := true, created_at := 0, updated_at := 0 }

def docDisabled : DocumentRecord :=
  { id := 1, equipment_id := eqIdA, tenant_id := "t1", file_name := "old.pdf",
    content_type := "application/pdf", size := 10,
    storage_key := "t1/equipment/a/k1-old.pdf", uploaded_by := settingsUserId,
    description := none, document_type := "knowledge",
    embedding_status := "completed", embedding_error := none,
    is_disabled := some true, created_at := 2, updated_at := 2 }

def docEnabled : DocumentRecord :=
  { id := 2, equipment_id := eqIdA, tenant_id := "t1", file_name := "new.pdf",
    content_type := "application/pdf", size := 20,
    storage_key := "t1/equipment/a/k2-new.pdf", uploaded_by := settingsUserId,
    description := none, document_type := "knowledge",
    embedding_status := "completed", embedding_error := none,
    is_disabled := none, created_at := 1, updated_at := 1 }

def c3Db : DbState :=
  { equipment := [eqRecA], documents := [docEnabled, docDisabled],
    chunks := [], nextDocId := 3 }

/-- C3 evaluated at the failing input: the route is served by the
first-registered handler, which sorts newest-first and serializes string ids
and ISO timestamps but does **not** filter `is_disabled`, so the disabled
document is returned; the handler that does filter it (mapped to the same
path later) is shadowed dead code. -/
theorem list_documents_returns_disabled_bug :
    docDisabled.is_disabled = some true ∧
    listEquipmentDocumentsRoute c3Db eqIdA = HttpOutcome.response 200
      { documents := [serializeDocument docDisabled, serializeDocument docEnabled],
        count := 2 } ∧
    listEquipmentDocumentsShadowed c3Db eqIdA = HttpOutcome.response 200
      { documents := [serializeDocument docEnabled], count := 1 } :=
  ⟨rfl, by decide, by decide⟩

/-! ### Upload response carries a stale status (C4) -/

def embedReal : String → Option (List ℚ) := fun t => (embedText t).toOption

def okFile : FileUpload :=
  { filename := some "m.txt", content_type := some "text/plain", size := 5,
    supported := true, extract_result := Except.ok "hello" }

def c4Db : DbState :=
  { equipment := [eqRecA], documents := [], chunks := [], nextDocId := 1 }

def c4Run : HttpOutcome ListDocsBody × DbState :=
  uploadEquipmentDocuments embedReal oneSplit c4Db eqIdA [okFile] none "u1" 7

def responseStatuses (o : HttpOutcome ListDocsBody) : List String :=
  match o with
  | HttpOutcome.response _ b => b.documents.map (fun d => d.embedding_status)
  | _ => []

/-- C4 evaluated at the failing input: a successfully ingested file ends with
the stored Document in `completed` status and one chunk persisted, but the
document entry in the 201 response still carries the creation-time
`processing` status — the response dict is never refreshed after the status
update. -/
theorem upload_response_status_stale_bug :
    httpStatusOf c4Run.1 = 201 ∧
    responseStatuses c4Run.1 = ["processing"] ∧
    c4Run.2.documents.map (fun d => d.embedding_status) = ["completed"] ∧
    c4Run.2.chunks.length = 1 :=
  ⟨by decide, by decide, by decide, by decide⟩

end VoiceRag
